import Mathlib

/-! Shallow embedding of BugRescue (src/bug_rescue.py) together with
proofs about the specified behaviour: the toolchain executor, the AI
provider retry loop, the patch extractor, the scan of the project tree,
and the per-artifact repair loop of main. -/

namespace BugRescue

/-- Terminal status of one artifact (the status field of the log entry in
main). -/
inductive Status where
  | Clean
  | Fixed
  | Failed
  | Skipped
deriving DecidableEq, Repr

/-- subprocess.CompletedProcess as used by Executor.run, with its
positional fields returncode, stdout, stderr; the args field is always
the empty list in the source and is dropped here. -/
structure ExecResult where
  returncode : Int
  stdout : String
  stderr : String
deriving DecidableEq, Repr

/-- Python substring test: needle in hay. -/
def strContains (hay needle : String) : Bool :=
  hay.toList.tails.any (fun t => needle.toList.isPrefixOf t)

/-- The orchestrator test on line 262: "SKIPPED" in res.stderr. -/
def hasSkipFlag (r : ExecResult) : Bool := strContains r.stderr "SKIPPED"

/-- Python regex word character for the ASCII range (the language tag
part of the fence pattern). -/
def isWordChar (c : Char) : Bool := c.isAlphanum || c = '_'

/-- Python whitespace set used by str.strip and the regex class. -/
def isSpaceChar (c : Char) : Bool :=
  c = ' ' || c = '\t' || c = '\n' || c = '\r' || c = '\x0b' || c = '\x0c'

/-- str.strip: drop leading and trailing whitespace. -/
def pyStripList (l : List Char) : List Char :=
  ((l.dropWhile isSpaceChar).reverse.dropWhile isSpaceChar).reverse

/-- str.strip on strings. -/
def pyStrip (s : String) : String := String.mk (pyStripList s.toList)

/-- str.lower, character by character. -/
def pyLower (s : String) : String := String.mk (s.toList.map Char.toLower)

/-- The triple-backtick fence marker of the regex in clean. -/
def fenceMarker : List Char := [Char.ofNat 96, Char.ofNat 96, Char.ofNat 96]

/-- Split a character list at the first occurrence of the fence marker:
returns the text before the fence and the text after it, or none when no
fence occurs. -/
def splitFence : List Char → Option (List Char × List Char)
  | [] => none
  | c :: cs =>
    if fenceMarker.isPrefixOf (c :: cs) then some ([], (c :: cs).drop 3)
    else
      match splitFence cs with
      | some (p, r) => some (c :: p, r)
      | none => none

/-- clean(raw), lines 192-198.  The regex is
    ``` (?:\w+)? \s* (.*?) ```
searched with re.DOTALL.  The leftmost match starts at the first fence
(a later match start would need a second fence, which would already let
the first fence match).  After the first fence, the greedy optional tag
consumes the maximal word-character run and the greedy whitespace class
the maximal whitespace run after it; since a backtick is neither a word
character nor whitespace, a closing fence can only occur after both
runs, so the match succeeds exactly when a second fence follows, and the
lazy group ends at the next fence.  Fallback: raw.strip(). -/
def clean (raw : String) : String :=
  match splitFence raw.toList with
  | none => pyStrip raw
  | some (_, rest) =>
    let afterWs := (rest.dropWhile isWordChar).dropWhile isSpaceChar
    match splitFence afterWs with
    | some (body, _) => String.mk (pyStripList body)
    | none => pyStrip raw

/-- Whether the regex of clean finds a complete fenced block in raw. -/
def hasFencedBlock (raw : String) : Bool :=
  match splitFence raw.toList with
  | none => false
  | some (_, rest) =>
    (splitFence ((rest.dropWhile isWordChar).dropWhile isSpaceChar)).isSome

/-- Python s[-n:]: the last n characters of s. -/
def lastChars (n : Nat) (s : String) : String :=
  String.mk (s.toList.drop (s.toList.length - n))

/-- get_prompt(code, error), lines 189-190; the error text is
tail-truncated to its last 2000 characters. -/
def get_prompt (code error : String) : String :=
  "Act as a Principal Engineer. Fix this code.\nERROR: " ++ lastChars 2000 error ++
    "\nCODE: " ++ code ++
    "\nINSTRUCTION: Return ONLY the fixed code block inside markdown code fences. No explanations."

/-- BACKUP_DIR, line 25. -/
def BACKUP_DIR : String := ".bugrescue_backups"

/-- FIXED_DIR, line 26. -/
def FIXED_DIR : String := "fixed_code"

/-- The backup copy destination of main, line 283:
BACKUP_DIR / (fname ++ ".bak"). -/
def backupPath (fname : String) : String := BACKUP_DIR ++ "/" ++ fname ++ ".bak"

/-- The staging destination of main, line 295: FIXED_DIR / fname. -/
def savePath (fname : String) : String := FIXED_DIR ++ "/" ++ fname

/-- A spawned process event of Executor.run: the compile step of the
.rs/.cpp branches, or the timeout-bounded execution on line 181. -/
inductive Proc where
  | compileCmd (cmd : List String)
  | executeCmd (cmd : List String)
deriving DecidableEq, Repr

/-- Outcome of the timeout-bounded subprocess.run call on line 181. -/
inductive RunOutcome where
  | completed (res : ExecResult)
  | timedOut
  | fileNotFound
  | otherError (msg : String)

/-- The system environment Executor.run interacts with: shutil.which,
os.name, sys.executable, the compile subprocess.run calls (lines 156 and
164, no timeout), the execution subprocess.run call (line 181, with its
timeout argument), and file reading for the static kinds. -/
structure SysEnv where
  which : String → Bool
  isNT : Bool
  pythonExe : String
  compileProc : List String → ExecResult
  runProc : List String → Nat → RunOutcome
  readFile : String → Except String String

/-- A scanned artifact path, split as the part before the extension and
the extension, mirroring pathlib: str is the full path and withSuffix
replaces the extension. -/
structure Artifact where
  stem : String
  suffix : String

/-- str(f_path). -/
def Artifact.str (a : Artifact) : String := a.stem ++ a.suffix

/-- f_path.with_suffix(s). -/
def Artifact.withSuffix (a : Artifact) (s : String) : String := a.stem ++ s

/-- The result returned on subprocess.TimeoutExpired, line 183. -/
def timeoutResult : ExecResult := ⟨124, "", "TIMEOUT: Process took too long"⟩

/-- The shared tail of Executor.run, lines 180-187:
subprocess.run(cmd, capture_output=True, text=True, timeout=15) with its
exception handlers. -/
def execTimed (env : SysEnv) (cmd : List String) : ExecResult :=
  match env.runProc cmd 15 with
  | .completed r => r
  | .timedOut => timeoutResult
  | .fileNotFound => ⟨1, "", "CRITICAL: Compiler executable missing from system"⟩
  | .otherError e => ⟨1, "", "SYSTEM ERROR: " ++ e⟩

/-- The missing-toolchain result of Executor.run. -/
def skippedTool (tool : String) : ExecResult :=
  ⟨1, "", "SKIPPED: \x27" ++ tool ++ "\x27 not found in PATH"⟩

/-- Executor.run, lines 135-187, returning the result together with the
list of processes spawned. -/
def Executor.run (env : SysEnv) (fp : Artifact) : ExecResult × List Proc :=
  let f := fp.str
  let ext := pyLower fp.suffix
  if ext = ".py" then
    (execTimed env [env.pythonExe, "-u", f], [.executeCmd [env.pythonExe, "-u", f]])
  else if ext = ".js" then
    if env.which "node" then (execTimed env ["node", f], [.executeCmd ["node", f]])
    else (skippedTool "node", [])
  else if ext = ".go" then
    if env.which "go" then
      (execTimed env ["go", "run", f], [.executeCmd ["go", "run", f]])
    else (skippedTool "go", [])
  else if ext = ".rs" then
    if env.which "rustc" then
      let bin := fp.withSuffix (if env.isNT then ".exe" else "")
      let cres := env.compileProc ["rustc", f, "-o", bin]
      if cres.returncode ≠ 0 then
        (⟨1, "", "Rust Compile Failed:\n" ++ cres.stderr⟩, [.compileCmd ["rustc", f, "-o", bin]])
      else (execTimed env [bin], [.compileCmd ["rustc", f, "-o", bin], .executeCmd [bin]])
    else (skippedTool "rustc", [])
  else if ext = ".cpp" then
    if env.which "g++" then
      let bin := fp.withSuffix (if env.isNT then ".exe" else "")
      let cres := env.compileProc ["g++", f, "-o", bin]
      if cres.returncode ≠ 0 then
        (⟨1, "", "C++ Compile Failed:\n" ++ cres.stderr⟩, [.compileCmd ["g++", f, "-o", bin]])
      else (execTimed env [bin], [.compileCmd ["g++", f, "-o", bin], .executeCmd [bin]])
    else (skippedTool "g++", [])
  else if ext = ".yaml" ∨ ext = ".dockerfile" ∨ ext = ".html" then
    match env.readFile f with
    | .ok c =>
      if strContains c "password:" && strContains c "Secret" then
        (⟨1, "", "Hardcoded Secret Detected"⟩, [])
      else (⟨0, "Valid", ""⟩, [])
    | .error e => (⟨1, "", "Read Error: " ++ e⟩, [])
  else (⟨0, "", "SKIPPED: Unsupported File Type"⟩, [])

/-- One backend attempt inside AIProvider.query: the provider branch body
either returns a string (this includes the missing-key "ERROR: ..."
returns, which do not raise) or raises an exception with the given
message.  The provider is one of the four argparse choices, so each loop
iteration either returns or raises. -/
inductive BackendResult where
  | ok (response : String)
  | exn (message : String)

/-- Observable outcome of AIProvider.query: the returned string, the
arguments of the time.sleep calls made (in order), and the number of
backend attempts. -/
structure QueryOut where
  result : String
  delays : List Nat
  calls : Nat
deriving DecidableEq, Repr

/-- The loop of AIProvider.query, lines 54-95, at attempt index attempt
with left = retries - attempt iterations of the range remaining: on an
exception at a non-final attempt (attempt < retries - 1) sleep
2 ^ attempt and continue; on an exception at the final attempt return
the API ERROR string.  Exhausting the range gives the fallthrough
return of line 95. -/
def queryFrom (backend : Nat → BackendResult) (retries : Nat) :
    Nat → Nat → QueryOut
  | 0, _ => ⟨"ERROR: Max retries exceeded.", [], 0⟩
  | left + 1, attempt =>
    match backend attempt with
    | .ok r => ⟨r, [], 1⟩
    | .exn e =>
      if attempt < retries - 1 then
        let rest := queryFrom backend retries left (attempt + 1)
        ⟨rest.result, 2 ^ attempt :: rest.delays, rest.calls + 1⟩
      else ⟨"API ERROR: " ++ e, [], 1⟩

/-- AIProvider.query with its default retries=3: the range runs from
attempt 0 with 3 iterations. -/
def query (backend : Nat → BackendResult) : QueryOut := queryFrom backend 3 3 0

/-- Environment of one artifact pass through the repair loop of main,
indexed by the 1-based attempt number: the execution result of the i-th
executor.run call, the outcome of reading the current code (its text, or
the message of the exception raised), and the raw ai.query response.
The backup copy and the staged write are modelled as succeeding; a
filesystem fault there would surface as the same Repair Failed early
abort that a read fault produces. -/
structure MainEnv where
  exec : Nat → ExecResult
  readF : Nat → Except String String
  aiResp : Nat → String

/-- What one iteration of the repair loop did: the path handed to
executor.run, its result, the backup destination when a copy was made,
whether ai.query was called, and the staging destination when a
candidate was accepted and written. -/
structure AttemptRec where
  path : String
  res : ExecResult
  backupTo : Option String
  aiCalled : Bool
  stagedTo : Option String
deriving DecidableEq, Repr

/-- The retry loop of main, lines 258-307, with fuel iterations left, at
attempt index i, current_code_path cur: returns the terminal status of
the entry and one record per iteration entered. -/
def runFrom (env : MainEnv) (dryRun : Bool) (fname : String) :
    Nat → Nat → String → Status × List AttemptRec
  | 0, _, _ => (.Failed, [])
  | fuel + 1, i, cur =>
    let res := env.exec i
    if hasSkipFlag res then (.Skipped, [⟨cur, res, none, false, none⟩])
    else if res.returncode = 0 then
      ((if 1 < i then .Fixed else .Clean), [⟨cur, res, none, false, none⟩])
    else if dryRun then
      let rest := runFrom env dryRun fname fuel (i + 1) cur
      (rest.1, ⟨cur, res, none, false, none⟩ :: rest.2)
    else
      let bk : Option String := if i = 1 then some (backupPath fname) else none
      match env.readF i with
      | .error _ => (.Failed, [⟨cur, res, bk, false, none⟩])
      | .ok _ =>
        if 10 < (clean (env.aiResp i)).length then
          let rest := runFrom env dryRun fname fuel (i + 1) (savePath fname)
          (rest.1, ⟨cur, res, bk, true, some (savePath fname)⟩ :: rest.2)
        else (.Failed, [⟨cur, res, bk, true, none⟩])

/-- Terminal status and per-attempt records of one artifact. -/
structure LoopOut where
  status : Status
  recs : List AttemptRec
deriving DecidableEq, Repr

/-- One artifact pass through the loop of main: range(1, 4), so three
attempts starting at index 1 on the original path. -/
def runArtifact (env : MainEnv) (dryRun : Bool) (fname orig : String) : LoopOut :=
  ⟨(runFrom env dryRun fname 3 1 orig).1, (runFrom env dryRun fname 3 1 orig).2⟩

/-- Specification-side status function, written from the words of the
claim: the terminal status as a function of the ordered ExecutionResult
sequence, with attempt indices starting at i.  The first skip-flagged
result gives Skipped; otherwise the first success gives Clean on attempt
1 and Fixed later; a trace exhausted without either gives Failed. -/
def specStatusFrom : List ExecResult → Nat → Status
  | [], _ => .Failed
  | r :: rs, i =>
    if hasSkipFlag r then .Skipped
    else if r.returncode = 0 then (if i = 1 then .Clean else .Fixed)
    else specStatusFrom rs (i + 1)

/-- Specification-side status of a trace whose first attempt is 1. -/
def specStatus (rs : List ExecResult) : Status := specStatusFrom rs 1

/-- ignore_dirs of main, line 221. -/
def ignoreDirs : List String :=
  [BACKUP_DIR, FIXED_DIR, ".git", "__pycache__", "node_modules"]

/-- One directory of the scanned tree, as os.walk sees it: its path
components below the scan root (empty for the root itself) and the plain
files it holds. -/
structure WalkEntry where
  relDirs : List String
  files : List String
deriving DecidableEq, Repr

/-- The in-place pruning of main, line 225: a directory is traversed
exactly when no component of its path below the root is an ignored name.
The root itself is never tested. -/
def keptEntry (e : WalkEntry) : Bool := e.relDirs.all (fun d => !(ignoreDirs.contains d))

/-- The dirpath string os.walk yields for an entry: the root path string
as given, extended by one separator per component. -/
def dirPathOf (root : String) (e : WalkEntry) : String :=
  e.relDirs.foldl (fun p d => p ++ "/" ++ d) root

/-- The extension allow-list of main, line 228. -/
def allowedExts : List String :=
  [".py", ".js", ".go", ".rs", ".cpp", ".java", ".yaml", ".dockerfile", ".html"]

/-- Python endswith on strings. -/
def endsWithStr (s suf : String) : Bool := suf.toList.isSuffixOf s.toList

/-- The file scan of main, lines 223-229: walk the directories of the
tree under the given root path, prune ignored directory names, and keep
files whose lowercased name ends with an allowed extension, as
(dirpath, filename) pairs; f_path is then dirpath / filename. -/
def scanFiles (root : String) (tree : List WalkEntry) : List (String × String) :=
  (tree.filter keptEntry).flatMap
    (fun e =>
      (e.files.filter (fun f => allowedExts.any (fun x => endsWithStr (pyLower f) x))).map
        (fun f => (dirPathOf root e, f)))

/-! Helper lemmas about the repair loop. -/

/-- One step of the loop: a skip-flagged result ends the artifact at once
as Skipped, with no backup, no AI call and no staging. -/
theorem runFrom_skip (env : MainEnv) (d : Bool) (fname : String) (fuel i : Nat) (cur : String)
    (hs : hasSkipFlag (env.exec i) = true) :
    runFrom env d fname (fuel + 1) i cur = (.Skipped, [⟨cur, env.exec i, none, false, none⟩]) := by
  simp [runFrom, hs]

/-- One step of the loop: a zero exit status (not skip-flagged) ends the
artifact as Clean on attempt 1 and Fixed later. -/
theorem runFrom_success (env : MainEnv) (d : Bool) (fname : String) (fuel i : Nat) (cur : String)
    (hs : hasSkipFlag (env.exec i) = false) (hr : (env.exec i).returncode = 0) :
    runFrom env d fname (fuel + 1) i cur =
      ((if 1 < i then .Fixed else .Clean), [⟨cur, env.exec i, none, false, none⟩]) := by
  simp [runFrom, hs, hr]

/-- One step of the loop in dry-run mode: a failure just advances to the
next attempt on the same path. -/
theorem runFrom_dry_step (env : MainEnv) (fname : String) (fuel i : Nat) (cur : String)
    (hs : hasSkipFlag (env.exec i) = false) (hr : (env.exec i).returncode ≠ 0) :
    runFrom env true fname (fuel + 1) i cur =
      ((runFrom env true fname fuel (i + 1) cur).1,
        ⟨cur, env.exec i, none, false, none⟩ :: (runFrom env true fname fuel (i + 1) cur).2) := by
  simp [runFrom, hs, hr]

/-- One step of the loop: a failure whose repair block raises while
reading the code aborts at once as Failed; the backup of attempt 1 has
already been made, and ai.query was not reached. -/
theorem runFrom_read_error (env : MainEnv) (fname : String) (fuel i : Nat) (cur e : String)
    (hs : hasSkipFlag (env.exec i) = false) (hr : (env.exec i).returncode ≠ 0)
    (hread : env.readF i = .error e) :
    runFrom env false fname (fuel + 1) i cur =
      (.Failed,
        [⟨cur, env.exec i, if i = 1 then some (backupPath fname) else none, false, none⟩]) := by
  simp [runFrom, hs, hr, hread]

/-- One step of the loop: a failure whose extracted candidate is at most
10 characters long is rejected and aborts at once as Failed. -/
theorem runFrom_reject (env : MainEnv) (fname : String) (fuel i : Nat) (cur s : String)
    (hs : hasSkipFlag (env.exec i) = false) (hr : (env.exec i).returncode ≠ 0)
    (hread : env.readF i = .ok s) (hlen : ¬ 10 < (clean (env.aiResp i)).length) :
    runFrom env false fname (fuel + 1) i cur =
      (.Failed,
        [⟨cur, env.exec i, if i = 1 then some (backupPath fname) else none, true, none⟩]) := by
  simp [runFrom, hs, hr, hread, hlen]

/-- One step of the loop: a failure whose extracted candidate passes the
length gate is staged to the fixed-code path and the loop continues
there. -/
theorem runFrom_accept (env : MainEnv) (fname : String) (fuel i : Nat) (cur s : String)
    (hs : hasSkipFlag (env.exec i) = false) (hr : (env.exec i).returncode ≠ 0)
    (hread : env.readF i = .ok s) (hlen : 10 < (clean (env.aiResp i)).length) :
    runFrom env false fname (fuel + 1) i cur =
      ((runFrom env false fname fuel (i + 1) (savePath fname)).1,
        ⟨cur, env.exec i, (if i = 1 then some (backupPath fname) else none), true,
            some (savePath fname)⟩ ::
          (runFrom env false fname fuel (i + 1) (savePath fname)).2) := by
  simp [runFrom, hs, hr, hread, hlen]

/-- The loop makes at most fuel attempts and its status is the
specification-side status of the trace it produced. -/
theorem runFrom_spec (env : MainEnv) (d : Bool) (fname : String) :
    ∀ (fuel i : Nat) (cur : String), 1 ≤ i →
      (runFrom env d fname fuel i cur).2.length ≤ fuel ∧
      (runFrom env d fname fuel i cur).1 =
        specStatusFrom ((runFrom env d fname fuel i cur).2.map AttemptRec.res) i := by
  intro fuel
  induction fuel with
  | zero => intro i cur _; simp [runFrom, specStatusFrom]
  | succ n ih =>
    intro i cur hi
    cases hs : hasSkipFlag (env.exec i) with
    | true =>
      rw [runFrom_skip env d fname n i cur hs]
      simp [specStatusFrom, hs]
    | false =>
      by_cases hr : (env.exec i).returncode = 0
      · rw [runFrom_success env d fname n i cur hs hr]
        simp only [List.length_cons, List.length_nil, List.map_cons, List.map_nil,
          specStatusFrom, hs, hr]
        constructor
        · omega
        · rcases Nat.lt_or_ge 1 i with h1 | h1
          · have hne : ¬ i = 1 := by omega
            simp [h1, hne]
          · have he : i = 1 := by omega
            simp [he]
      · cases d with
        | true =>
          rw [runFrom_dry_step env fname n i cur hs hr]
          have hrec := ih (i + 1) cur (by omega)
          simp only [List.length_cons, List.map_cons, specStatusFrom, hs, hr]
          constructor
          · omega
          · simpa using hrec.2
        | false =>
          cases hread : env.readF i with
          | error e =>
            rw [runFrom_read_error env fname n i cur e hs hr hread]
            simp [specStatusFrom, hs, hr]
          | ok s =>
            by_cases hlen : 10 < (clean (env.aiResp i)).length
            · rw [runFrom_accept env fname n i cur s hs hr hread hlen]
              have hrec := ih (i + 1) (savePath fname) (by omega)
              simp only [List.length_cons, List.map_cons, specStatusFrom, hs, hr]
              constructor
              · omega
              · simpa using hrec.2
            · rw [runFrom_reject env fname n i cur s hs hr hread hlen]
              simp [specStatusFrom, hs, hr]

/-- From attempt 2 on, no iteration makes a backup copy. -/
theorem runFrom_no_backup_late (env : MainEnv) (d : Bool) (fname : String) :
    ∀ (fuel i : Nat) (cur : String), 2 ≤ i →
      ∀ r ∈ (runFrom env d fname fuel i cur).2, r.backupTo = none := by
  intro fuel
  induction fuel with
  | zero => intro i cur _; simp [runFrom]
  | succ n ih =>
    intro i cur hi r hr
    have hne : ¬ i = 1 := by omega
    cases hs : hasSkipFlag (env.exec i) with
    | true =>
      rw [runFrom_skip env d fname n i cur hs] at hr
      simp at hr; simp [hr]
    | false =>
      by_cases hrc : (env.exec i).returncode = 0
      · rw [runFrom_success env d fname n i cur hs hrc] at hr
        simp at hr; simp [hr]
      · cases d with
        | true =>
          rw [runFrom_dry_step env fname n i cur hs hrc] at hr
          rcases List.mem_cons.mp hr with h | h
          · simp [h]
          · exact ih (i + 1) cur (by omega) r h
        | false =>
          cases hread : env.readF i with
          | error e =>
            rw [runFrom_read_error env fname n i cur e hs hrc hread] at hr
            simp at hr; simp [hr, hne]
          | ok s =>
            by_cases hlen : 10 < (clean (env.aiResp i)).length
            · rw [runFrom_accept env fname n i cur s hs hrc hread hlen] at hr
              rcases List.mem_cons.mp hr with h | h
              · simp [h, hne]
              · exact ih (i + 1) (savePath fname) (by omega) r h
            · rw [runFrom_reject env fname n i cur s hs hrc hread hlen] at hr
              simp at hr; simp [hr, hne]

/-- Every backup destination the loop ever uses is the flat
backupPath. -/
theorem runFrom_backup_vals (env : MainEnv) (d : Bool) (fname : String) :
    ∀ (fuel i : Nat) (cur : String),
      ∀ r ∈ (runFrom env d fname fuel i cur).2,
        r.backupTo = none ∨ r.backupTo = some (backupPath fname) := by
  intro fuel
  induction fuel with
  | zero => intro i cur; simp [runFrom]
  | succ n ih =>
    intro i cur r hr
    cases hs : hasSkipFlag (env.exec i) with
    | true =>
      rw [runFrom_skip env d fname n i cur hs] at hr
      simp at hr; simp [hr]
    | false =>
      by_cases hrc : (env.exec i).returncode = 0
      · rw [runFrom_success env d fname n i cur hs hrc] at hr
        simp at hr; simp [hr]
      · cases d with
        | true =>
          rw [runFrom_dry_step env fname n i cur hs hrc] at hr
          rcases List.mem_cons.mp hr with h | h
          · simp [h]
          · exact ih (i + 1) cur r h
        | false =>
          cases hread : env.readF i with
          | error e =>
            rw [runFrom_read_error env fname n i cur e hs hrc hread] at hr
            simp at hr; subst hr
            by_cases h1 : i = 1 <;> simp [h1]
          | ok s =>
            by_cases hlen : 10 < (clean (env.aiResp i)).length
            · rw [runFrom_accept env fname n i cur s hs hrc hread hlen] at hr
              rcases List.mem_cons.mp hr with h | h
              · subst h; by_cases h1 : i = 1 <;> simp [h1]
              · exact ih (i + 1) (savePath fname) r h
            · rw [runFrom_reject env fname n i cur s hs hrc hread hlen] at hr
              simp at hr; subst hr
              by_cases h1 : i = 1 <;> simp [h1]

/-- Every staging destination the loop ever uses is the fixed-code
savePath. -/
theorem runFrom_staged_vals (env : MainEnv) (d : Bool) (fname : String) :
    ∀ (fuel i : Nat) (cur : String),
      ∀ r ∈ (runFrom env d fname fuel i cur).2,
        r.stagedTo = none ∨ r.stagedTo = some (savePath fname) := by
  intro fuel
  induction fuel with
  | zero => intro i cur; simp [runFrom]
  | succ n ih =>
    intro i cur r hr
    cases hs : hasSkipFlag (env.exec i) with
    | true =>
      rw [runFrom_skip env d fname n i cur hs] at hr
      simp at hr; simp [hr]
    | false =>
      by_cases hrc : (env.exec i).returncode = 0
      · rw [runFrom_success env d fname n i cur hs hrc] at hr
        simp at hr; simp [hr]
      · cases d with
        | true =>
          rw [runFrom_dry_step env fname n i cur hs hrc] at hr
          rcases List.mem_cons.mp hr with h | h
          · simp [h]
          · exact ih (i + 1) cur r h
        | false =>
          cases hread : env.readF i with
          | error e =>
            rw [runFrom_read_error env fname n i cur e hs hrc hread] at hr
            simp at hr; simp [hr]
          | ok s =>
            by_cases hlen : 10 < (clean (env.aiResp i)).length
            · rw [runFrom_accept env fname n i cur s hs hrc hread hlen] at hr
              rcases List.mem_cons.mp hr with h | h
              · simp [h]
              · exact ih (i + 1) (savePath fname) r h
            · rw [runFrom_reject env fname n i cur s hs hrc hread hlen] at hr
              simp at hr; simp [hr]

/-- With fuel left, the loop always enters at least one iteration, and
that iteration runs the current path. -/
theorem runFrom_head_path (env : MainEnv) (d : Bool) (fname : String) (fuel i : Nat)
    (cur : String) :
    (runFrom env d fname (fuel + 1) i cur).2.head?.map AttemptRec.path = some cur := by
  cases hs : hasSkipFlag (env.exec i) with
  | true => rw [runFrom_skip env d fname fuel i cur hs]; rfl
  | false =>
    by_cases hrc : (env.exec i).returncode = 0
    · rw [runFrom_success env d fname fuel i cur hs hrc]; rfl
    · cases d with
      | true => rw [runFrom_dry_step env fname fuel i cur hs hrc]; rfl
      | false =>
        cases hread : env.readF i with
        | error e => rw [runFrom_read_error env fname fuel i cur e hs hrc hread]; rfl
        | ok s =>
          by_cases hlen : 10 < (clean (env.aiResp i)).length
          · rw [runFrom_accept env fname fuel i cur s hs hrc hread hlen]; rfl
          · rw [runFrom_reject env fname fuel i cur s hs hrc hread hlen]; rfl

/-- Chain predicate on a record list: each attempt after the first runs
the same path as its predecessor, unless the predecessor staged a
candidate, in which case it runs the staged path. -/
def pathChain (save : String) : List AttemptRec → Bool
  | [] => true
  | [_] => true
  | a :: b :: rest =>
    (b.path == if a.stagedTo.isSome then save else a.path) && pathChain save (b :: rest)

/-- The loop satisfies the chain predicate: the active path changes only
at an accepting Patching step, and then to the staged path. -/
theorem runFrom_chain (env : MainEnv) (d : Bool) (fname : String) :
    ∀ (fuel i : Nat) (cur : String),
      pathChain (savePath fname) (runFrom env d fname fuel i cur).2 = true := by
  intro fuel
  induction fuel with
  | zero => intro i cur; simp [runFrom, pathChain]
  | succ n ih =>
    intro i cur
    cases hs : hasSkipFlag (env.exec i) with
    | true => rw [runFrom_skip env d fname n i cur hs]; rfl
    | false =>
      by_cases hrc : (env.exec i).returncode = 0
      · rw [runFrom_success env d fname n i cur hs hrc]; rfl
      · cases d with
        | true =>
          rw [runFrom_dry_step env fname n i cur hs hrc]
          cases n with
          | zero => simp [runFrom, pathChain]
          | succ m =>
            have hh := runFrom_head_path env true fname m (i + 1) cur
            have hc := ih (i + 1) cur
            cases hrecs : (runFrom env true fname (m + 1) (i + 1) cur).2 with
            | nil => simp [pathChain]
            | cons b rest =>
              rw [hrecs] at hh hc
              simp at hh
              simp [pathChain, hh, hc]
        | false =>
          cases hread : env.readF i with
          | error e => rw [runFrom_read_error env fname n i cur e hs hrc hread]; rfl
          | ok s =>
            by_cases hlen : 10 < (clean (env.aiResp i)).length
            · rw [runFrom_accept env fname n i cur s hs hrc hread hlen]
              cases n with
              | zero => simp [runFrom, pathChain]
              | succ m =>
                have hh := runFrom_head_path env false fname m (i + 1) (savePath fname)
                have hc := ih (i + 1) (savePath fname)
                cases hrecs : (runFrom env false fname (m + 1) (i + 1) (savePath fname)).2 with
                | nil => simp [pathChain]
                | cons b rest =>
                  rw [hrecs] at hh hc
                  simp at hh
                  simp [pathChain, hh, hc]
            · rw [runFrom_reject env fname n i cur s hs hrc hread hlen]; rfl

/-! The claims. -/

/-- C1: for every artifact, at most 3 execution attempts are made, and
the terminal outcome is a pure function of the ordered execution result
sequence: the first skip-flagged result gives Skipped regardless of
attempt index (the tool-unavailable clause takes precedence over the
success test, as C10 makes explicit); otherwise the first successful
execution (exit status 0) gives Clean on attempt 1 and Fixed on a later
attempt; and reaching the end of processing without any success,
whether by exhausting the 3-attempt budget or by early abort on patch
rejection or repair error, gives Failed: the status always equals
specStatus of the trace. -/
theorem C1_outcome_pure_function_of_trace (env : MainEnv) (d : Bool) (fname orig : String) :
    (runArtifact env d fname orig).recs.length ≤ 3 ∧
    (runArtifact env d fname orig).status =
      specStatus ((runArtifact env d fname orig).recs.map AttemptRec.res) := by
  have h := runFrom_spec env d fname 3 1 orig (by omega)
  exact ⟨h.1, h.2⟩

/-- C2: for each kind that needs an external toolchain (node for .js, go
for .go, rustc for .rs, g++ for .cpp), a missing executable makes the
runner return the skipped result naming the missing tool, with no
process spawned; any such first result ends the artifact as Skipped on
the first attempt with no AI call. -/
theorem C2_missing_toolchain_skips (senv : SysEnv) (a : Artifact) (menv : MainEnv) (d : Bool)
    (fname orig : String) :
    (pyLower a.suffix = ".js" → senv.which "node" = false →
      Executor.run senv a = (skippedTool "node", []))
  ∧ (pyLower a.suffix = ".go" → senv.which "go" = false →
      Executor.run senv a = (skippedTool "go", []))
  ∧ (pyLower a.suffix = ".rs" → senv.which "rustc" = false →
      Executor.run senv a = (skippedTool "rustc", []))
  ∧ (pyLower a.suffix = ".cpp" → senv.which "g++" = false →
      Executor.run senv a = (skippedTool "g++", []))
  ∧ (hasSkipFlag (skippedTool "node") = true ∧ hasSkipFlag (skippedTool "go") = true ∧
      hasSkipFlag (skippedTool "rustc") = true ∧ hasSkipFlag (skippedTool "g++") = true)
  ∧ (strContains (skippedTool "node").stderr "node" = true ∧
      strContains (skippedTool "go").stderr "go" = true ∧
      strContains (skippedTool "rustc").stderr "rustc" = true ∧
      strContains (skippedTool "g++").stderr "g++" = true)
  ∧ (hasSkipFlag (menv.exec 1) = true →
      (runArtifact menv d fname orig).status = .Skipped ∧
      (runArtifact menv d fname orig).recs.length = 1 ∧
      ∀ r ∈ (runArtifact menv d fname orig).recs, r.aiCalled = false) := by
  refine ⟨?_, ?_, ?_, ?_, ⟨by decide, by decide, by decide, by decide⟩,
    ⟨by decide, by decide, by decide, by decide⟩, ?_⟩
  · intro h hw
    simp only [Executor.run, h]
    rw [if_neg (by decide), if_pos (by decide), if_neg (by simp [hw])]
  · intro h hw
    simp only [Executor.run, h]
    rw [if_neg (by decide), if_neg (by decide), if_pos (by decide), if_neg (by simp [hw])]
  · intro h hw
    simp only [Executor.run, h]
    rw [if_neg (by decide), if_neg (by decide), if_neg (by decide), if_pos (by decide),
      if_neg (by simp [hw])]
  · intro h hw
    simp only [Executor.run, h]
    rw [if_neg (by decide), if_neg (by decide), if_neg (by decide), if_neg (by decide),
      if_pos (by decide), if_neg (by simp [hw])]
  · intro hs
    have h := runFrom_skip menv d fname 2 1 orig hs
    refine ⟨?_, ?_, ?_⟩
    · show (runFrom menv d fname 3 1 orig).1 = .Skipped
      rw [h]
    · show (runFrom menv d fname 3 1 orig).2.length = 1
      rw [h]
      rfl
    · intro r hr
      have : (runArtifact menv d fname orig).recs = [⟨orig, menv.exec 1, none, false, none⟩] := by
        show (runFrom menv d fname 3 1 orig).2 = _
        rw [h]
      rw [this] at hr
      simp at hr
      simp [hr]

/-- Concrete environment for the C2 witness: no toolchain present, and a
first execution result flagged as skipped. -/
def c2senv : SysEnv :=
  ⟨fun _ => false, false, "python3", fun _ => ⟨0, "", ""⟩, fun _ _ => .timedOut, fun _ => .ok ""⟩

/-- Concrete loop environment for the C2 witness. -/
def c2menv : MainEnv := ⟨fun _ => skippedTool "node", fun _ => .ok "", fun _ => ""⟩

/-- C2 witness: a .js artifact with node absent is returned as skipped,
and its artifact ends Skipped in one attempt with no AI call. -/
theorem C2_missing_toolchain_skips_witness :
    Executor.run c2senv ⟨"m", ".js"⟩ = (skippedTool "node", [])
  ∧ (runArtifact c2menv false "m.js" "m.js").status = .Skipped
  ∧ (runArtifact c2menv false "m.js" "m.js").recs.length = 1
  ∧ ∀ r ∈ (runArtifact c2menv false "m.js" "m.js").recs, r.aiCalled = false := by
  have h := C2_missing_toolchain_skips c2senv ⟨"m", ".js"⟩ c2menv false "m.js" "m.js"
  have hloop := (h.2.2.2.2.2.2) (by decide)
  exact ⟨h.1 (by decide) rfl, hloop.1, hloop.2.1, hloop.2.2⟩

/-- C3 counterexample: the backup of a.py goes to
.bugrescue_backups/a.py.bak, which is not of the form
BACKUP_DIR/<timestamp>/a.py.bak for any timestamp string whatsoever:
backups are not placed in a per-run timestamped subdirectory. -/
theorem C3_counterexample_no_timestamped_subdir :
    ¬ ∃ ts : String, backupPath "a.py" = BACKUP_DIR ++ "/" ++ ts ++ "/" ++ "a.py" ++ ".bak" := by
  rintro ⟨ts, h⟩
  have hl := congrArg String.length h
  simp only [backupPath, String.length_append] at hl
  have h1 : (BACKUP_DIR : String).length = 18 := rfl
  have h2 : ("/" : String).length = 1 := rfl
  have h3 : ("a.py" : String).length = 4 := rfl
  have h4 : (".bak" : String).length = 4 := rfl
  rw [h1, h2, h3, h4] at hl
  omega

/-- C3 amended: when patching is enabled, the pristine original is copied
once to the flat backup store BACKUP_DIR as fname.bak (no timestamped
per-run subdirectory) on the first failed attempt, before any patch is
requested; at most one backup is ever made per artifact, and none when
the first execution succeeds or skips. -/
theorem C3_amended_backup_once_flat (env : MainEnv) (fname orig : String) :
    ((runArtifact env false fname orig).recs.filter (fun r => r.backupTo.isSome)).length ≤ 1
  ∧ (∀ r ∈ (runArtifact env false fname orig).recs,
      r.backupTo = none ∨ r.backupTo = some (backupPath fname))
  ∧ (hasSkipFlag (env.exec 1) = false → (env.exec 1).returncode ≠ 0 →
      (runArtifact env false fname orig).recs.head?.map AttemptRec.backupTo =
        some (some (backupPath fname)))
  ∧ ((hasSkipFlag (env.exec 1) = true ∨ (env.exec 1).returncode = 0) →
      ∀ r ∈ (runArtifact env false fname orig).recs, r.backupTo = none)
  ∧ ((∃ r ∈ (runArtifact env false fname orig).recs, r.aiCalled = true) →
      (runArtifact env false fname orig).recs.head?.map AttemptRec.backupTo =
        some (some (backupPath fname))) := by
  have hvals := runFrom_backup_vals env false fname 3 1 orig
  cases hs : hasSkipFlag (env.exec 1) with
  | true =>
    have h := runFrom_skip env false fname 2 1 orig hs
    have hrecs : (runArtifact env false fname orig).recs = [⟨orig, env.exec 1, none, false, none⟩] := by
      show (runFrom env false fname 3 1 orig).2 = _
      rw [h]
    refine ⟨?_, ?_, ?_, ?_, ?_⟩
    · rw [hrecs]; simp
    · intro r hr; rw [hrecs] at hr; simp at hr; simp [hr]
    · intro h1 _; exact absurd h1 (by decide)
    · intro _ r hr; rw [hrecs] at hr; simp at hr; simp [hr]
    · rintro ⟨r, hr, hai⟩; rw [hrecs] at hr; simp at hr; rw [hr] at hai; cases hai
  | false =>
    by_cases hrc : (env.exec 1).returncode = 0
    · have h := runFrom_success env false fname 2 1 orig hs hrc
      have hrecs : (runArtifact env false fname orig).recs = [⟨orig, env.exec 1, none, false, none⟩] := by
        show (runFrom env false fname 3 1 orig).2 = _
        rw [h]
      refine ⟨?_, ?_, ?_, ?_, ?_⟩
      · rw [hrecs]; simp
      · intro r hr; rw [hrecs] at hr; simp at hr; simp [hr]
      · intro _ h2; exact absurd hrc h2
      · intro _ r hr; rw [hrecs] at hr; simp at hr; simp [hr]
      · rintro ⟨r, hr, hai⟩; rw [hrecs] at hr; simp at hr; rw [hr] at hai; cases hai
    · have hlate := runFrom_no_backup_late env false fname 2 2 (savePath fname) (by omega)
      have hlate2 := runFrom_no_backup_late env false fname 2 2 orig (by omega)
      cases hread : env.readF 1 with
      | error e =>
        have h := runFrom_read_error env fname 2 1 orig e hs hrc hread
        have hrecs : (runArtifact env false fname orig).recs =
            [⟨orig, env.exec 1, some (backupPath fname), false, none⟩] := by
          show (runFrom env false fname 3 1 orig).2 = _
          rw [h]
          rfl
        refine ⟨?_, ?_, ?_, ?_, ?_⟩
        · rw [hrecs]; simp
        · intro r hr; rw [hrecs] at hr; simp at hr; simp [hr]
        · intro _ _; rw [hrecs]; rfl
        · rintro (h1 | h2)
          · exact absurd h1 (by decide)
          · exact absurd h2 hrc
        · intro _; rw [hrecs]; rfl
      | ok s =>
        by_cases hlen : 10 < (clean (env.aiResp 1)).length
        · have h := runFrom_accept env fname 2 1 orig s hs hrc hread hlen
          have hrecs : (runArtifact env false fname orig).recs =
              ⟨orig, env.exec 1, some (backupPath fname), true, some (savePath fname)⟩ ::
                (runFrom env false fname 2 2 (savePath fname)).2 := by
            show (runFrom env false fname 3 1 orig).2 = _
            rw [h]
            rfl
          refine ⟨?_, ?_, ?_, ?_, ?_⟩
          · rw [hrecs]
            rw [List.filter_cons_of_pos (by rfl)]
            have hnil : ((runFrom env false fname 2 2 (savePath fname)).2.filter
                (fun r => r.backupTo.isSome)) = [] := by
              apply List.filter_eq_nil_iff.mpr
              intro r hr
              rw [hlate r hr]
              decide
            rw [hnil]
            simp
          · intro r hr; exact hvals r hr
          · intro _ _; rw [hrecs]; rfl
          · rintro (h1 | h2)
            · exact absurd h1 (by decide)
            · exact absurd h2 hrc
          · intro _; rw [hrecs]; rfl
        · have h := runFrom_reject env fname 2 1 orig s hs hrc hread hlen
          have hrecs : (runArtifact env false fname orig).recs =
              [⟨orig, env.exec 1, some (backupPath fname), true, none⟩] := by
            show (runFrom env false fname 3 1 orig).2 = _
            rw [h]
            rfl
          refine ⟨?_, ?_, ?_, ?_, ?_⟩
          · rw [hrecs]; simp
          · intro r hr; rw [hrecs] at hr; simp at hr; simp [hr]
          · intro _ _; rw [hrecs]; rfl
          · rintro (h1 | h2)
            · exact absurd h1 (by decide)
            · exact absurd h2 hrc
          · intro _; rw [hrecs]; rfl

/-- Concrete loop environment for the C3 witness: every execution fails
and every candidate is accepted, so all three attempts run. -/
def c3menv : MainEnv := ⟨fun _ => ⟨1, "", "boom"⟩, fun _ => .ok "x", fun _ => "0123456789abc"⟩

/-- C3 witness: with three failing attempts, exactly one backup is made,
on attempt 1, to the flat backup path. -/
theorem C3_amended_backup_once_flat_witness :
    ((runArtifact c3menv false "a.py" "p/a.py").recs.filter (fun r => r.backupTo.isSome)).length ≤ 1
  ∧ (runArtifact c3menv false "a.py" "p/a.py").recs.head?.map AttemptRec.backupTo =
      some (some (backupPath "a.py")) := by
  have h := C3_amended_backup_once_flat c3menv "a.py" "p/a.py"
  exact ⟨h.1, h.2.2.1 (by decide) (by decide)⟩

/-- Concrete loop environment for C4: every execution fails and every
candidate passes the length gate. -/
def c4env : MainEnv := ⟨fun _ => ⟨1, "", "boom"⟩, fun _ => .ok "x", fun _ => "0123456789abc"⟩

/-- C4 counterexample: when the scan root is the staging directory
itself, the scan yields an artifact whose path is FIXED_DIR/fname (the
root directory is never pruned, only subdirectories are), and the
accepted candidate of that artifact is staged to that very same path:
the original source file is overwritten in place. -/
theorem C4_counterexample_staging_overwrites_original :
    scanFiles "fixed_code" [⟨[], ["a.py"]⟩] = [("fixed_code", "a.py")]
  ∧ savePath "a.py" = "fixed_code" ++ "/" ++ "a.py"
  ∧ (runArtifact c4env false "a.py" ("fixed_code" ++ "/" ++ "a.py")).recs.head?.map
      (fun r => (r.path, r.stagedTo)) =
      some ("fixed_code" ++ "/" ++ "a.py", some ("fixed_code" ++ "/" ++ "a.py")) := by
  refine ⟨by decide, by decide, by decide⟩

/-- C4 amended: an accepted candidate is always staged to the fixed-code
path FIXED_DIR/fname, which differs from the original path for every
artifact whose own path is not exactly that staging path (in particular
whenever the scan root is not the staging directory); the first attempt
runs the original, and the active path changes only at an accepting
Patching step, to the staged path. -/
theorem C4_amended_staging_distinct_active_path (env : MainEnv) (fname orig : String)
    (h : orig ≠ savePath fname) :
    (∀ r ∈ (runArtifact env false fname orig).recs,
      r.stagedTo = none ∨ r.stagedTo = some (savePath fname))
  ∧ (∀ r ∈ (runArtifact env false fname orig).recs, r.stagedTo ≠ some orig)
  ∧ (runArtifact env false fname orig).recs.head?.map AttemptRec.path = some orig
  ∧ pathChain (savePath fname) (runArtifact env false fname orig).recs = true := by
  refine ⟨?_, ?_, ?_, ?_⟩
  · exact runFrom_staged_vals env false fname 3 1 orig
  · intro r hr hcon
    rcases runFrom_staged_vals env false fname 3 1 orig r hr with h0 | h0
    · rw [h0] at hcon; cases hcon
    · rw [h0] at hcon
      have : savePath fname = orig := by injection hcon
      exact h this.symm
  · exact runFrom_head_path env false fname 2 1 orig
  · exact runFrom_chain env false fname 3 1 orig

/-- Concrete loop environment for the C4 witness. -/
def c4wenv : MainEnv := ⟨fun _ => ⟨1, "", "boom"⟩, fun _ => .ok "x", fun _ => "0123456789abc"⟩

/-- C4 witness: with a distinct original path, the first attempt runs the
original and the path chain holds. -/
theorem C4_amended_staging_distinct_active_path_witness :
    ((runArtifact c4wenv false "a.py" "p/a.py").recs.head?.map AttemptRec.path = some "p/a.py")
  ∧ pathChain (savePath "a.py") (runArtifact c4wenv false "a.py" "p/a.py").recs = true
  ∧ ∀ r ∈ (runArtifact c4wenv false "a.py" "p/a.py").recs, r.stagedTo ≠ some "p/a.py" := by
  have h := C4_amended_staging_distinct_active_path c4wenv "a.py" "p/a.py" (by decide)
  exact ⟨h.2.2.1, h.2.2.2, h.2.1⟩

/-- C5 counterexample: the input has a stray opening fence but no
complete fenced block; the fallback returns it unchanged, fence marker
included, rather than stripping stray fence markers. -/
theorem C5_counterexample_fallback_keeps_fences :
    hasFencedBlock "```abc" = false
  ∧ clean "```abc" = "```abc"
  ∧ strContains (clean "```abc") "```" = true := by
  refine ⟨by decide, by decide, by decide⟩

/-- C5 amended: the extractor returns the whitespace-trimmed interior of
the first fenced block when a complete one exists (both cited examples
hold, and the first block wins); when no complete fenced block exists it
returns the raw text trimmed of leading and trailing whitespace only —
stray fence markers are not removed.  The extractor is a total function,
so it never raises on any input, including the empty string. -/
theorem C5_amended_extractor (raw : String) :
    clean "```python\nprint(1)\n```" = "print(1)"
  ∧ clean "no fences here" = "no fences here"
  ∧ clean "" = ""
  ∧ clean "x ``` one ``` and ``` two ```" = "one"
  ∧ (hasFencedBlock raw = false → clean raw = pyStrip raw) := by
  refine ⟨by decide, by decide, by decide, by decide, ?_⟩
  intro h
  cases hsf : splitFence raw.toList with
  | none =>
    have hsf2 : splitFence raw.data = none := hsf
    simp [clean, hsf2]
  | some pr =>
    rcases pr with ⟨p, rest⟩
    have hsf1 : splitFence raw.data = some (p, rest) := hsf
    cases hsf2 : splitFence ((rest.dropWhile isWordChar).dropWhile isSpaceChar) with
    | none => simp [clean, hsf1, hsf2]
    | some pr2 =>
      rw [hasFencedBlock, hsf] at h
      simp [hsf2] at h

/-- C5 witness: a fence-free input goes through the fallback and is
returned whitespace-trimmed. -/
theorem C5_amended_extractor_witness :
    hasFencedBlock "zzz" = false ∧ clean "zzz" = pyStrip "zzz" := by
  exact ⟨by decide, (C5_amended_extractor "zzz").2.2.2.2 (by decide)⟩

/-- Closed-form unfolding of query over the three attempts. -/
theorem query_unfold (backend : Nat → BackendResult) :
    query backend =
      match backend 0 with
      | .ok r => ⟨r, [], 1⟩
      | .exn _ =>
        match backend 1 with
        | .ok r => ⟨r, [1], 2⟩
        | .exn _ =>
          match backend 2 with
          | .ok r => ⟨r, [1, 2], 3⟩
          | .exn e2 => ⟨"API ERROR: " ++ e2, [1, 2], 3⟩ := by
  rcases h0 : backend 0 with r0 | e0 <;> rcases h1 : backend 1 with r1 | e1 <;>
    rcases h2 : backend 2 with r2 | e2 <;> simp [query, queryFrom, h0, h1, h2]

/-- The API ERROR string is never empty. -/
theorem apiErrorString_ne_empty (e : String) : "API ERROR: " ++ e ≠ "" := by
  intro hcon
  have hl := congrArg String.length hcon
  rw [String.length_append] at hl
  have h1 : ("API ERROR: " : String).length = 11 := rfl
  have h2 : ("" : String).length = 0 := rfl
  rw [h1, h2] at hl
  omega

/-- C6: query makes at most 3 backend attempts; when the first two raise
it has slept 1 then 2 time units (base delay 1 doubling per attempt, so
total delay 1 + 2); when the third then succeeds, the successful
response is returned, and when the third also raises, a non-empty
API ERROR string is returned.  The model is a total function, so no
exception of the backend ever propagates to the caller. -/
theorem C6_ai_query_retry_backoff (backend : Nat → BackendResult) :
    (query backend).calls ≤ 3
  ∧ (∀ e0 e1, backend 0 = .exn e0 → backend 1 = .exn e1 →
      ((query backend).delays = [1, 2]
    ∧ (∀ r, backend 2 = .ok r → (query backend).result = r)
    ∧ (∀ e2, backend 2 = .exn e2 →
        (query backend).result = "API ERROR: " ++ e2 ∧ (query backend).result ≠ ""))) := by
  constructor
  · rcases h0 : backend 0 with r0 | e0
    · simp [query, queryFrom, h0]
    · rcases h1 : backend 1 with r1 | e1
      · simp [query, queryFrom, h0, h1]
      · rcases h2 : backend 2 with r2 | e2 <;> simp [query, queryFrom, h0, h1, h2]
  · intro e0 e1 h0 h1
    refine ⟨?_, ?_, ?_⟩
    · rcases h2 : backend 2 with r2 | e2 <;> simp [query, queryFrom, h0, h1, h2]
    · intro r h2
      simp [query, queryFrom, h0, h1, h2]
    · intro e2 h2
      have hres : (query backend).result = "API ERROR: " ++ e2 := by
        simp [query, queryFrom, h0, h1, h2]
      exact ⟨hres, by rw [hres]; exact apiErrorString_ne_empty e2⟩

/-- Concrete backend for the C6 witness: two transport failures, then a
success. -/
def c6backend : Nat → BackendResult := fun n => if n < 2 then .exn "boom" else .ok "patched"

/-- C6 witness: the fail-fail-succeed backend returns the successful
response after sleeping 1 and 2 time units over 3 attempts. -/
theorem C6_ai_query_retry_backoff_witness :
    (query c6backend).calls ≤ 3
  ∧ (query c6backend).delays = [1, 2]
  ∧ (query c6backend).result = "patched" := by
  have h := C6_ai_query_retry_backoff c6backend
  exact ⟨h.1, (h.2 "boom" "boom" rfl rfl).1, (h.2 "boom" "boom" rfl rfl).2.1 "patched" rfl⟩

/-- C7: for .rs and .cpp artifacts with the toolchain present, the
compiler is invoked first, targeting the deterministic sibling path
given by with_suffix; a nonzero compile exit yields a failure whose
diagnostic is the prefixed compiler stderr and spawns no further
process (the binary is never executed); a zero compile exit executes
the binary through the same timeout-and-capture helper execTimed that
the interpreted kinds use. -/
theorem C7_compiled_kinds_compile_then_run (env : SysEnv) (a : Artifact) :
    (pyLower a.suffix = ".rs" → env.which "rustc" = true →
      (((env.compileProc ["rustc", a.str, "-o",
            a.withSuffix (if env.isNT then ".exe" else "")]).returncode ≠ 0 →
        Executor.run env a =
          (⟨1, "", "Rust Compile Failed:\n" ++
              (env.compileProc ["rustc", a.str, "-o",
                a.withSuffix (if env.isNT then ".exe" else "")]).stderr⟩,
            [.compileCmd ["rustc", a.str, "-o",
              a.withSuffix (if env.isNT then ".exe" else "")]]))
    ∧ ((env.compileProc ["rustc", a.str, "-o",
            a.withSuffix (if env.isNT then ".exe" else "")]).returncode = 0 →
        Executor.run env a =
          (execTimed env [a.withSuffix (if env.isNT then ".exe" else "")],
            [.compileCmd ["rustc", a.str, "-o", a.withSuffix (if env.isNT then ".exe" else "")],
              .executeCmd [a.withSuffix (if env.isNT then ".exe" else "")]]))))
  ∧ (pyLower a.suffix = ".cpp" → env.which "g++" = true →
      (((env.compileProc ["g++", a.str, "-o",
            a.withSuffix (if env.isNT then ".exe" else "")]).returncode ≠ 0 →
        Executor.run env a =
          (⟨1, "", "C++ Compile Failed:\n" ++
              (env.compileProc ["g++", a.str, "-o",
                a.withSuffix (if env.isNT then ".exe" else "")]).stderr⟩,
            [.compileCmd ["g++", a.str, "-o",
              a.withSuffix (if env.isNT then ".exe" else "")]]))
    ∧ ((env.compileProc ["g++", a.str, "-o",
            a.withSuffix (if env.isNT then ".exe" else "")]).returncode = 0 →
        Executor.run env a =
          (execTimed env [a.withSuffix (if env.isNT then ".exe" else "")],
            [.compileCmd ["g++", a.str, "-o", a.withSuffix (if env.isNT then ".exe" else "")],
              .executeCmd [a.withSuffix (if env.isNT then ".exe" else "")]]))))
  ∧ (pyLower a.suffix = ".py" →
      Executor.run env a =
        (execTimed env [env.pythonExe, "-u", a.str],
          [.executeCmd [env.pythonExe, "-u", a.str]])) := by
  refine ⟨?_, ?_, ?_⟩
  · intro h hw
    constructor
    · intro hc
      simp only [Executor.run, h]
      rw [if_neg (by decide), if_neg (by decide), if_neg (by decide), if_pos (by decide)]
      simp [hw, hc]
    · intro hc
      simp only [Executor.run, h]
      rw [if_neg (by decide), if_neg (by decide), if_neg (by decide), if_pos (by decide)]
      simp [hw, hc]
  · intro h hw
    constructor
    · intro hc
      simp only [Executor.run, h]
      rw [if_neg (by decide), if_neg (by decide), if_neg (by decide), if_neg (by decide),
        if_pos (by decide)]
      simp [hw, hc]
    · intro hc
      simp only [Executor.run, h]
      rw [if_neg (by decide), if_neg (by decide), if_neg (by decide), if_neg (by decide),
        if_pos (by decide)]
      simp [hw, hc]
  · intro h
    simp only [Executor.run, h]
    rw [if_pos (by decide)]

/-- Concrete environment for the C7 witness: toolchain present, compiler
fails. -/
def c7senv : SysEnv :=
  ⟨fun _ => true, false, "py", fun _ => ⟨1, "", "bad"⟩,
    fun _ _ => .completed ⟨0, "", ""⟩, fun _ => .ok ""⟩

/-- C7 witness: a failing rustc compile is reported with the prefixed
compiler stderr and the binary is never spawned. -/
theorem C7_compiled_kinds_compile_then_run_witness :
    Executor.run c7senv ⟨"p/a", ".rs"⟩ =
      (⟨1, "", "Rust Compile Failed:\nbad"⟩, [.compileCmd ["rustc", "p/a.rs", "-o", "p/a"]]) := by
  have h := ((C7_compiled_kinds_compile_then_run c7senv ⟨"p/a", ".rs"⟩).1 (by decide) rfl).1
    (by decide)
  exact h.trans (by decide)

/-- C8: a process exceeding the 15-unit timeout is reported as the
distinct timeout result, exit status 124 with the TIMEOUT diagnostic,
which carries no skip flag; the orchestrator treats it as a retriable
failure: ai.query is called on it, and when the candidate is accepted a
second execution attempt follows. -/
theorem C8_timeout_distinct_and_retriable (senv : SysEnv) (a : Artifact) (cmd : List String)
    (menv : MainEnv) (fname orig s : String) :
    (senv.runProc cmd 15 = .timedOut → execTimed senv cmd = timeoutResult)
  ∧ timeoutResult.returncode = 124
  ∧ hasSkipFlag timeoutResult = false
  ∧ (pyLower a.suffix = ".py" → senv.runProc [senv.pythonExe, "-u", a.str] 15 = .timedOut →
      (Executor.run senv a).1 = timeoutResult)
  ∧ (menv.exec 1 = timeoutResult → menv.readF 1 = .ok s →
      ((runArtifact menv false fname orig).recs.head?.map AttemptRec.aiCalled = some true
    ∧ (10 < (clean (menv.aiResp 1)).length →
        2 ≤ (runArtifact menv false fname orig).recs.length))) := by
  refine ⟨?_, rfl, by decide, ?_, ?_⟩
  · intro h
    simp [execTimed, h]
  · intro h hrun
    simp only [Executor.run, h]
    rw [if_pos (by decide)]
    simp [execTimed, hrun]
  · intro hexec hread
    have hs : hasSkipFlag (menv.exec 1) = false := by rw [hexec]; decide
    have hrc : (menv.exec 1).returncode ≠ 0 := by rw [hexec]; decide
    constructor
    · by_cases hlen : 10 < (clean (menv.aiResp 1)).length
      · have h := runFrom_accept menv fname 2 1 orig s hs hrc hread hlen
        show ((runFrom menv false fname 3 1 orig).2.head?).map AttemptRec.aiCalled = some true
        rw [h]
        rfl
      · have h := runFrom_reject menv fname 2 1 orig s hs hrc hread hlen
        show ((runFrom menv false fname 3 1 orig).2.head?).map AttemptRec.aiCalled = some true
        rw [h]
        rfl
    · intro hlen
      have h := runFrom_accept menv fname 2 1 orig s hs hrc hread hlen
      show 2 ≤ (runFrom menv false fname 3 1 orig).2.length
      rw [h]
      have hh := runFrom_head_path menv false fname 1 2 (savePath fname)
      cases hrecs : (runFrom menv false fname 2 2 (savePath fname)).2 with
      | nil => rw [hrecs] at hh; simp at hh
      | cons b rest =>
        simp

/-- Concrete environments for the C8 witness: everything times out, reads
succeed, candidates pass the gate. -/
def c8senv : SysEnv :=
  ⟨fun _ => true, false, "py", fun _ => ⟨0, "", ""⟩, fun _ _ => .timedOut, fun _ => .ok ""⟩

/-- Concrete loop environment for the C8 witness. -/
def c8menv : MainEnv := ⟨fun _ => timeoutResult, fun _ => .ok "x", fun _ => "0123456789abc"⟩

/-- C8 witness: a timed-out .py run yields the 124 TIMEOUT result, and in
the loop a timeout on attempt 1 leads to an AI call and a second
attempt. -/
theorem C8_timeout_distinct_and_retriable_witness :
    (Executor.run c8senv ⟨"p/a", ".py"⟩).1 = timeoutResult
  ∧ (runArtifact c8menv false "a.py" "p/a.py").recs.head?.map AttemptRec.aiCalled = some true
  ∧ 2 ≤ (runArtifact c8menv false "a.py" "p/a.py").recs.length := by
  have h := C8_timeout_distinct_and_retriable c8senv ⟨"p/a", ".py"⟩ [] c8menv "a.py" "p/a.py" "x"
  have h5 := h.2.2.2.2 rfl rfl
  exact ⟨h.2.2.2.1 (by decide) rfl, h5.1, h5.2 (by decide)⟩

/-- C9: at any failing attempt the candidate is accepted only when its
extracted length exceeds 10 characters; at or below the threshold it is
rejected and the loop aborts at once with no staging, ending the
artifact as Failed with no further AI calls or executions; above the
threshold the iteration stages the candidate to the fixed-code path. -/
theorem C9_patch_gate_threshold_aborts (env : MainEnv) (fname : String) (fuel i : Nat)
    (cur s : String) (hs : hasSkipFlag (env.exec i) = false)
    (hr : (env.exec i).returncode ≠ 0) (hread : env.readF i = .ok s) :
    ((clean (env.aiResp i)).length ≤ 10 →
      runFrom env false fname (fuel + 1) i cur =
        (.Failed,
          [⟨cur, env.exec i, if i = 1 then some (backupPath fname) else none, true, none⟩]))
  ∧ (10 < (clean (env.aiResp i)).length →
      (runFrom env false fname (fuel + 1) i cur).2.head? =
        some ⟨cur, env.exec i, if i = 1 then some (backupPath fname) else none, true,
          some (savePath fname)⟩) := by
  constructor
  · intro hlen
    exact runFrom_reject env fname fuel i cur s hs hr hread (by omega)
  · intro hlen
    rw [runFrom_accept env fname fuel i cur s hs hr hread hlen]
    rfl

/-- Concrete loop environment for the C9 witness: the AI answer cleans to
the 5-character string short, below the threshold. -/
def c9menv : MainEnv := ⟨fun _ => ⟨1, "", "boom"⟩, fun _ => .ok "x", fun _ => "short"⟩

/-- C9 witness: a rejected candidate ends the artifact as Failed after a
single attempt with nothing staged. -/
theorem C9_patch_gate_threshold_aborts_witness :
    runFrom c9menv false "a.py" 3 1 "p/a.py" =
      (.Failed, [⟨"p/a.py", ⟨1, "", "boom"⟩, some (backupPath "a.py"), true, none⟩]) := by
  have h := (C9_patch_gate_threshold_aborts c9menv "a.py" 2 1 "p/a.py" "x" (by decide) (by decide)
    rfl).1 (by decide)
  exact h.trans (by decide)

/-- C10: a result is classified Skipped exactly by the substring test
SKIPPED on its captured stderr, applied before the exit-status success
test: any first result carrying the substring ends the artifact as
Skipped in one attempt with no retry and no AI call, even with exit
status 0 (so a successful run with SKIPPED in stderr counts as Skipped,
not Clean), and the zero-exit unsupported-kind result is such a
result. -/
theorem C10_skip_substring_priority (senv : SysEnv) (a : Artifact) (menv : MainEnv) (d : Bool)
    (fname orig : String) :
    (hasSkipFlag (menv.exec 1) = true →
      ((runArtifact menv d fname orig).status = .Skipped
    ∧ (runArtifact menv d fname orig).recs.length = 1
    ∧ ∀ r ∈ (runArtifact menv d fname orig).recs, r.aiCalled = false))
  ∧ (hasSkipFlag (menv.exec 1) = true → (menv.exec 1).returncode = 0 →
      ((runArtifact menv d fname orig).status = .Skipped ∧
        (runArtifact menv d fname orig).status ≠ .Clean))
  ∧ (pyLower a.suffix = ".java" →
      (Executor.run senv a = (⟨0, "", "SKIPPED: Unsupported File Type"⟩, [])
    ∧ hasSkipFlag ⟨0, "", "SKIPPED: Unsupported File Type"⟩ = true))
  ∧ (∀ r : ExecResult, hasSkipFlag r = strContains r.stderr "SKIPPED") := by
  refine ⟨?_, ?_, ?_, fun r => rfl⟩
  · intro hsflag
    have h := runFrom_skip menv d fname 2 1 orig hsflag
    refine ⟨?_, ?_, ?_⟩
    · show (runFrom menv d fname 3 1 orig).1 = .Skipped
      rw [h]
    · show (runFrom menv d fname 3 1 orig).2.length = 1
      rw [h]
      rfl
    · intro r hr
      have hrecs : (runArtifact menv d fname orig).recs =
          [⟨orig, menv.exec 1, none, false, none⟩] := by
        show (runFrom menv d fname 3 1 orig).2 = _
        rw [h]
      rw [hrecs] at hr
      simp at hr
      simp [hr]
  · intro hsflag _
    have h := runFrom_skip menv d fname 2 1 orig hsflag
    constructor
    · show (runFrom menv d fname 3 1 orig).1 = .Skipped
      rw [h]
    · show (runFrom menv d fname 3 1 orig).1 ≠ .Clean
      rw [h]
      exact fun hcon => Status.noConfusion hcon
  · intro h
    constructor
    · simp only [Executor.run, h]
      rw [if_neg (by decide), if_neg (by decide), if_neg (by decide), if_neg (by decide),
        if_neg (by decide), if_neg (by decide)]
    · decide

/-- Concrete environment for the C10 witness. -/
def c10senv : SysEnv :=
  ⟨fun _ => false, false, "py", fun _ => ⟨0, "", ""⟩, fun _ _ => .timedOut, fun _ => .ok ""⟩

/-- Concrete loop environment for the C10 witness: a zero-exit result
whose stderr contains SKIPPED. -/
def c10menv : MainEnv :=
  ⟨fun _ => ⟨0, "out", "note SKIPPED note"⟩, fun _ => .ok "", fun _ => ""⟩

/-- C10 witness: a successful run with SKIPPED in stderr is counted as
Skipped, not Clean, and a .java artifact produces the zero-exit skip
result. -/
theorem C10_skip_substring_priority_witness :
    (runArtifact c10menv false "a.py" "a.py").status = .Skipped
  ∧ (runArtifact c10menv false "a.py" "a.py").status ≠ .Clean
  ∧ Executor.run c10senv ⟨"m", ".java"⟩ = (⟨0, "", "SKIPPED: Unsupported File Type"⟩, []) := by
  have h := C10_skip_substring_priority c10senv ⟨"m", ".java"⟩ c10menv false "a.py" "a.py"
  have h2 := h.2.1 (by decide) (by decide)
  exact ⟨h2.1, h2.2, (h.2.2.1 (by decide)).1⟩

end BugRescue
